import Mathlib

/-!
Shallow embedding of the DCP consumer (`src/dcp/consumer.cc`) of ep-engine.

The consumer receives a replication stream of mutations for a set of
partitions ("vbuckets").  This file models, as pure Lean functions over an
explicit consumer state, the inbound dispatch entry points (addStream,
closeStream, streamEnd, mutation, deletion, expiration, snapshotMarker,
setVBucketState, noop, flush), the response correlation path
(handleResponse, streamAccepted), the outbound pump (step, getNextItem and
its helpers handleNoop, handlePriority, handleExtMetaData,
handleValueCompression, supportCursorDropping), the rollback task
(doRollback, RollbackTask::run) and the readiness-list insertion
(notifyStreamReady).

Code of collaborating classes that is not part of the repository snapshot
(PassiveStream, FlowControl, the storage engine) is treated as an oracle:
its observable result is passed in as an argument, and its state effects
that the consumer depends on are modelled from the specification where
noted.
-/

namespace Dcp

/-- Engine result codes (`ENGINE_ERROR_CODE`) as used by the consumer. -/
inductive EngineCode where
  | success
  | want_more
  | disconnect
  | key_enoent
  | key_eexists
  | not_my_vbucket
  | enomem
  | einval
  | tmpfail
  | enotsup
  | failed
deriving DecidableEq, Repr

/-- Modelled from the spec: PassiveStream states (dcp/stream.h is not in the
snapshot).  PENDING → READING on acceptance, terminal DEAD. -/
inductive StreamState where
  | pending
  | reading
  | dead
deriving DecidableEq, Repr

/-- The part of a PassiveStream the consumer's dispatch code reads: the
locally minted opq and the stream state. -/
structure StreamInfo where
  opq : Nat
  state : StreamState
deriving DecidableEq, Repr

/-- Modelled from the spec: `PassiveStream::isActive` (dcp/stream.h is not in
the snapshot); a stream is active while it is not DEAD. -/
def StreamInfo.isActive (st : StreamInfo) : Bool :=
  match st.state with
  | .dead => false
  | _ => true

/-- The consumer state read and written by the entry points of
`src/dcp/consumer.cc`.  `streams` is the vbid-indexed array of optional
passive streams, `ready` the FIFO readiness list, `opqMap` the
correlation registry (locally minted opaque ↦ (external opaque, vbid)),
`freedBytes` the FlowControl freed-byte tally credited through
`incrFreedBytes`. -/
structure ConsumerState where
  disconnectFlag : Bool
  streams : List (Option StreamInfo)
  ready : List Nat
  opqCounter : Nat
  opqMap : List (Nat × Nat × Nat)
  itemsToProcess : Bool
  freedBytes : Nat
  lastNoopTime : Nat
  noopInterval : Nat
  pendingEnableNoop : Bool
  pendingSendNoopInterval : Bool
  pendingSetPriority : Bool
  pendingEnableExtMetaData : Bool
  pendingEnableValueCompression : Bool
  pendingSupportCursorDropping : Bool
  paused : Bool
deriving DecidableEq, Repr

/-- Configuration fields the consumer constructor reads. -/
structure Configuration where
  maxVbuckets : Nat
  dcpNoopInterval : Nat
  dcpEnableNoop : Bool
  dcpValueCompressionEnabled : Bool
deriving DecidableEq, Repr

/-- `DcpConsumer::DcpConsumer`: the state a freshly constructed consumer has
(`now` is `ep_current_time()` at construction). -/
def consumerInit (cfg : Configuration) (now : Nat) : ConsumerState where
  disconnectFlag := false
  streams := List.replicate cfg.maxVbuckets none
  ready := []
  opqCounter := 0
  opqMap := []
  itemsToProcess := false
  freedBytes := 0
  lastNoopTime := now
  noopInterval := cfg.dcpNoopInterval
  pendingEnableNoop := cfg.dcpEnableNoop
  pendingSendNoopInterval := cfg.dcpEnableNoop
  pendingSetPriority := true
  pendingEnableExtMetaData := true
  pendingEnableValueCompression := cfg.dcpValueCompressionEnabled
  pendingSupportCursorDropping := true
  paused := false

/-- `streams[vbucket]`: array lookup, absent slot or out-of-range is none. -/
def ConsumerState.streamAt (s : ConsumerState) (vbucket : Nat) : Option StreamInfo :=
  (s.streams.getD vbucket none)

/-- Modelled from the spec: byte cost constants of dcp/response.h (not in the
snapshot).  The concrete values are irrelevant to every claim; only the
shape `base + nkey + nmeta + nvalue` of the credited cost matters. -/
def mutationBaseMsgBytes : Nat := 55

/-- Modelled from the spec: `MutationResponse::deletionBaseMsgBytes`. -/
def deletionBaseMsgBytes : Nat := 42

/-- Modelled from the spec: `SnapshotMarker::baseMsgBytes`. -/
def snapshotMarkerBaseMsgBytes : Nat := 44

/-- Modelled from the spec: `SetVBucketState::baseMsgBytes`. -/
def setVBucketStateBaseMsgBytes : Nat := 25

/-- Modelled from the spec: `StreamEndResponse::baseMsgBytes`. -/
def streamEndBaseMsgBytes : Nat := 28

/-- Result of an inbound dispatch call: the engine code returned to the
caller, the successor consumer state, whether the message reached
`stream->messageReceived`, and whether the processor task was woken. -/
structure Inbound where
  code : EngineCode
  state : ConsumerState
  delivered : Bool
  woke : Bool
deriving DecidableEq, Repr

/-- The shared tail of every inbound dispatch after `messageReceived`
returned `mr` (each entry point of consumer.cc repeats this block
verbatim): on TMPFAIL arm `itemsToProcess` by compare-and-set, wake the
processor if the flag flipped, and return SUCCESS crediting nothing;
otherwise credit `bytes` to FlowControl and return `mr` verbatim. -/
def deliverTail (s : ConsumerState) (mr : EngineCode) (bytes : Nat) : Inbound :=
  if mr = .tmpfail then
    ⟨.success, { s with itemsToProcess := true }, true, !s.itemsToProcess⟩
  else
    ⟨mr, { s with freedBytes := s.freedBytes + bytes }, true, false⟩

/-- The no-stream arm of an inbound dispatch: `err` stays `KEY_ENOENT`,
which is not TMPFAIL, so the byte cost is still credited before return. -/
def noStreamTail (s : ConsumerState) (bytes : Nat) : Inbound :=
  ⟨.key_enoent, { s with freedBytes := s.freedBytes + bytes }, false, false⟩

/-- `DcpConsumer::mutation`.  `emdStatus` is the status of the parsed
extended metadata when `nmeta > 0` (ExtendedMetaData is not in the
snapshot), `allocOk` whether the MutationResponse allocation succeeds, and
`mr` the result of `stream->messageReceived` (modelled from the spec:
one of SUCCESS, TMPFAIL, or another failure). -/
def mutation (s : ConsumerState) (opq vbucket : Nat)
    (nkey nvalue nmeta bySeqno : Nat)
    (emdStatus : EngineCode) (allocOk : Bool) (mr : EngineCode) : Inbound :=
  if s.disconnectFlag then ⟨.disconnect, s, false, false⟩
  else if bySeqno = 0 then ⟨.einval, s, false, false⟩
  else
    let bytes := mutationBaseMsgBytes + nkey + nmeta + nvalue
    match s.streamAt vbucket with
    | some st =>
      if st.opq = opq ∧ st.isActive = true then
        if nmeta > 0 ∧ emdStatus = .einval then ⟨.einval, s, false, false⟩
        else if allocOk = false then ⟨.enomem, s, false, false⟩
        else deliverTail s mr bytes
      else noStreamTail s bytes
    | none => noStreamTail s bytes

/-- `DcpConsumer::deletion` (same shape as mutation, deletion byte cost has
no value component). -/
def deletion (s : ConsumerState) (opq vbucket : Nat)
    (nkey nmeta bySeqno : Nat)
    (emdStatus : EngineCode) (allocOk : Bool) (mr : EngineCode) : Inbound :=
  if s.disconnectFlag then ⟨.disconnect, s, false, false⟩
  else if bySeqno = 0 then ⟨.einval, s, false, false⟩
  else
    let bytes := deletionBaseMsgBytes + nkey + nmeta
    match s.streamAt vbucket with
    | some st =>
      if st.opq = opq ∧ st.isActive = true then
        if nmeta > 0 ∧ emdStatus = .einval then ⟨.einval, s, false, false⟩
        else if allocOk = false then ⟨.enomem, s, false, false⟩
        else deliverTail s mr bytes
      else noStreamTail s bytes
    | none => noStreamTail s bytes

/-- `DcpConsumer::expiration`: delegates verbatim to deletion. -/
def expiration (s : ConsumerState) (opq vbucket : Nat)
    (nkey nmeta bySeqno : Nat)
    (emdStatus : EngineCode) (allocOk : Bool) (mr : EngineCode) : Inbound :=
  deletion s opq vbucket nkey nmeta bySeqno emdStatus allocOk mr

/-- `DcpConsumer::snapshotMarker`. -/
def snapshotMarker (s : ConsumerState) (opq vbucket : Nat)
    (startSeqno endSeqno flags : Nat)
    (allocOk : Bool) (mr : EngineCode) : Inbound :=
  if s.disconnectFlag then ⟨.disconnect, s, false, false⟩
  else if startSeqno > endSeqno then ⟨.einval, s, false, false⟩
  else
    match s.streamAt vbucket with
    | some st =>
      if st.opq = opq ∧ st.isActive = true then
        if allocOk = false then ⟨.enomem, s, false, false⟩
        else deliverTail s mr snapshotMarkerBaseMsgBytes
      else noStreamTail s snapshotMarkerBaseMsgBytes
    | none => noStreamTail s snapshotMarkerBaseMsgBytes

/-- `DcpConsumer::streamEnd`. -/
def streamEnd (s : ConsumerState) (opq vbucket flags : Nat)
    (allocOk : Bool) (mr : EngineCode) : Inbound :=
  if s.disconnectFlag then ⟨.disconnect, s, false, false⟩
  else
    match s.streamAt vbucket with
    | some st =>
      if st.opq = opq ∧ st.isActive = true then
        if allocOk = false then ⟨.enomem, s, false, false⟩
        else deliverTail s mr streamEndBaseMsgBytes
      else noStreamTail s streamEndBaseMsgBytes
    | none => noStreamTail s streamEndBaseMsgBytes

/-- `DcpConsumer::setVBucketState` (the requested vbucket state itself is
opq to the dispatch logic and is carried as a number). -/
def setVBucketState (s : ConsumerState) (opq vbucket stateArg : Nat)
    (allocOk : Bool) (mr : EngineCode) : Inbound :=
  if s.disconnectFlag then ⟨.disconnect, s, false, false⟩
  else
    match s.streamAt vbucket with
    | some st =>
      if st.opq = opq ∧ st.isActive = true then
        if allocOk = false then ⟨.enomem, s, false, false⟩
        else deliverTail s mr setVBucketStateBaseMsgBytes
      else noStreamTail s setVBucketStateBaseMsgBytes
    | none => noStreamTail s setVBucketStateBaseMsgBytes

/-- `DcpConsumer::noop`: records the time and returns SUCCESS.  It performs
no disconnect check. -/
def noop (s : ConsumerState) (opq now : Nat) : EngineCode × ConsumerState :=
  (.success, { s with lastNoopTime := now })

/-- `DcpConsumer::flush`. -/
def flush (s : ConsumerState) (opq vbucket : Nat) : EngineCode × ConsumerState :=
  if s.disconnectFlag then (.disconnect, s)
  else (.enotsup, s)

/-- What the consumer reads from the engine's vbucket handle in addStream:
whether the partition exists is the option, and whether its state is
active.  The snapshot/failover fields it copies into the new stream are
not tracked by this model. -/
structure VBucketInfo where
  stateIsActive : Bool
deriving DecidableEq, Repr

/-- `DcpConsumer::addStream`.  `vb` is `engine_.getVBucket(vbucket)`.  Note
the opaque counter is bumped before the duplicate-stream check, and the
vbid is appended to `ready` without a membership check. -/
def addStream (s : ConsumerState) (opq vbucket flags : Nat)
    (vb : Option VBucketInfo) : EngineCode × ConsumerState :=
  if s.disconnectFlag then (.disconnect, s)
  else
    match vb with
    | none => (.not_my_vbucket, s)
    | some vbi =>
      if vbi.stateIsActive then (.not_my_vbucket, s)
      else
        let newOpq := s.opqCounter + 1
        let s1 := { s with opqCounter := newOpq }
        let dup := match s1.streamAt vbucket with
          | some st => st.isActive
          | none => false
        if dup then (.key_eexists, s1)
        else
          (.success,
            { s1 with
              streams := s1.streams.set vbucket (some ⟨newOpq, .pending⟩)
              ready := s1.ready ++ [vbucket]
              opqMap := (newOpq, opq, vbucket) :: s1.opqMap })

/-- `opaqueMap_.find` + entry access: look up a locally minted opaque,
returning the (external opaque, vbid) pair. -/
def findOpq : List (Nat × Nat × Nat) → Nat → Option (Nat × Nat)
  | [], _ => none
  | (k, a, v) :: rest, o => if k = o then some (a, v) else findOpq rest o

/-- `opaqueMap_.erase`: drop the entry with the given key (keys are unique,
the first hit is removed). -/
def eraseOpq : List (Nat × Nat × Nat) → Nat → List (Nat × Nat × Nat)
  | [], _ => []
  | (k, a, v) :: rest, o => if k = o then rest else (k, a, v) :: eraseOpq rest o

/-- `DcpConsumer::closeStream`.  `bytesCleared` is what
`stream->setDead(END_STREAM_CLOSED)` returns (PassiveStream internals are
not in the snapshot). -/
def closeStream (s : ConsumerState) (opq vbucket : Nat)
    (bytesCleared : Nat) : EngineCode × ConsumerState :=
  if s.disconnectFlag then (.disconnect, s)
  else
    let s1 := { s with opqMap := eraseOpq s.opqMap opq }
    match s1.streamAt vbucket with
    | none => (.key_enoent, s1)
    | some st =>
      (.success,
        { s1 with
          streams := s1.streams.set vbucket (some { st with state := .dead })
          freedBytes := s1.freedBytes + bytesCleared })

/-- `DcpConsumer::notifyStreamReady`: append the vbid to `ready` only if it
is not already present. -/
def notifyStreamReady (s : ConsumerState) (vbucket : Nat) : ConsumerState :=
  if s.ready.contains vbucket then s
  else { s with ready := s.ready ++ [vbucket] }

/-- `DcpConsumer::isValidOpaque`. -/
def isValidOpq (s : ConsumerState) (opq vbucket : Nat) : Bool :=
  match s.streamAt vbucket with
  | some st => st.opq = opq
  | none => false

/-- Modelled from the spec: `PassiveStream::acceptStream` (dcp/stream.cc is
not in the snapshot): a PENDING stream becomes READING when the producer
accepted (status 0) and DEAD otherwise. -/
def acceptStream (st : StreamInfo) (status : Nat) : StreamInfo :=
  if status = 0 then { st with state := .reading }
  else { st with state := .dead }

/-- `DcpConsumer::streamAccepted` (the failover-log replacement and the
vbucket snapshot schedule act on external state and are not tracked):
transition the matching PENDING stream via acceptStream and erase the
opaque-registry entry. -/
def streamAccepted (s : ConsumerState) (opq status : Nat) : ConsumerState :=
  match findOpq s.opqMap opq with
  | none => s
  | some (_, vbucket) =>
    let s1 := match s.streamAt vbucket with
      | some st =>
        if st.opq = opq ∧ st.state = StreamState.pending then
          { s with streams := s.streams.set vbucket (some (acceptStream st status)) }
        else s
      | none => s
    { s1 with opqMap := eraseOpq s1.opqMap opq }

/-- Wire opcode of a DCP stream-request response
(`PROTOCOL_BINARY_CMD_DCP_STREAM_REQ`; the protocol header is not in the
snapshot, values are the standard memcached binary-protocol ones). -/
def CMD_DCP_STREAM_REQ : Nat := 0x53

/-- `PROTOCOL_BINARY_CMD_DCP_BUFFER_ACKNOWLEDGEMENT`. -/
def CMD_DCP_BUFFER_ACKNOWLEDGEMENT : Nat := 0x5d

/-- `PROTOCOL_BINARY_CMD_DCP_CONTROL`. -/
def CMD_DCP_CONTROL : Nat := 0x5e

/-- `PROTOCOL_BINARY_RESPONSE_ROLLBACK` status value. -/
def STATUS_ROLLBACK : Nat := 0x23

/-- Result of `DcpConsumer::handleResponse`: the engine code, the successor
state, and the scheduled rollback task's arguments (opaque, vbid,
rollbackSeqno) when one was scheduled. -/
structure ResponseOut where
  code : EngineCode
  state : ConsumerState
  scheduledRollback : Option (Nat × Nat × Nat)
deriving DecidableEq, Repr

/-- `DcpConsumer::handleResponse`.  `opcode`, `status` and `bodylen` come
from the response header; `rollbackSeqno` is the big-endian seqno the body
carries when it is a ROLLBACK body (byte decoding is external to this
model).  Note the failover-log length check applies only when
`status == ENGINE_SUCCESS` (numerically 0). -/
def handleResponse (s : ConsumerState)
    (opcode opq status bodylen rollbackSeqno : Nat) : ResponseOut :=
  if s.disconnectFlag then ⟨.disconnect, s, none⟩
  else
    match findOpq s.opqMap opq with
    | none => ⟨.key_enoent, s, none⟩
    | some (_, vbucket) =>
      if isValidOpq s opq vbucket = false then ⟨.key_enoent, s, none⟩
      else if opcode = CMD_DCP_STREAM_REQ then
        if status = STATUS_ROLLBACK then
          if bodylen ≠ 8 then ⟨.disconnect, s, none⟩
          else ⟨.success, s, some (opq, vbucket, rollbackSeqno)⟩
        else if (bodylen % 16 ≠ 0 ∨ bodylen = 0) ∧ status = 0 then
          ⟨.disconnect, s, none⟩
        else ⟨.success, streamAccepted s opq status, none⟩
      else if opcode = CMD_DCP_BUFFER_ACKNOWLEDGEMENT ∨ opcode = CMD_DCP_CONTROL then
        ⟨.success, s, none⟩
      else ⟨.disconnect, s, none⟩

/-- A reconnectStream invocation recorded by the rollback path:
(vbid, opaque, start seqno = the vbucket's high seqno). -/
structure ReconnectCall where
  vbid : Nat
  opq : Nat
  startSeqno : Nat
deriving DecidableEq, Repr

/-- The fatal arms of the background tasks (`throw std::logic_error` in
doRollback, `abort()` in getNextItem). -/
inductive RunError where
  | logicError
  | abortCalled
deriving DecidableEq, Repr

/-- `DcpConsumer::doRollback`.  `storageResult` is what
`engine_.getEpStore()->rollback(vbid, rollbackSeqno)` returned and
`highSeqno` is `vb->getHighSeqno()` (both external to the snapshot).
Returns whether to reschedule, and the reconnectStream call made on
success. -/
def doRollback (opq vbid rollbackSeqno : Nat) (storageResult : EngineCode)
    (highSeqno : Nat) : Except RunError (Bool × Option ReconnectCall) :=
  match storageResult with
  | .not_my_vbucket => .ok (false, none)
  | .tmpfail => .ok (true, none)
  | .success => .ok (false, some ⟨vbid, opq, highSeqno⟩)
  | _ => .error .logicError

/-- `RollbackTask::run`: rerun the task while doRollback asks for it, and
bump the engine's rollback counter exactly when doRollback returns false.
Yields (reschedule?, new rollback counter, reconnect call). -/
def rollbackTaskRun (opq vbid rollbackSeqno : Nat) (storageResult : EngineCode)
    (highSeqno rollbackCount : Nat) :
    Except RunError (Bool × Nat × Option ReconnectCall) :=
  match doRollback opq vbid rollbackSeqno storageResult highSeqno with
  | .error e => .error e
  | .ok (true, rc) => .ok (true, rollbackCount, rc)
  | .ok (false, rc) => .ok (false, rollbackCount + 1, rc)

/-- `DcpConsumer::handleNoop` (`now` is `ep_current_time()`; `controlResult`
is the result of the `producers->control` call when one is emitted).  The
pending enable-noop and interval messages are sent first; afterwards the
liveness window is checked unconditionally. -/
def handleNoop (s : ConsumerState) (now : Nat)
    (controlResult : EngineCode) : EngineCode × ConsumerState :=
  if s.pendingEnableNoop then
    (controlResult,
      { s with pendingEnableNoop := false, opqCounter := s.opqCounter + 1 })
  else if s.pendingSendNoopInterval then
    (controlResult,
      { s with pendingSendNoopInterval := false, opqCounter := s.opqCounter + 1 })
  else if now - s.lastNoopTime > s.noopInterval * 2 then
    (.disconnect, s)
  else
    (.failed, s)

/-- `DcpConsumer::handlePriority`. -/
def handlePriority (s : ConsumerState)
    (controlResult : EngineCode) : EngineCode × ConsumerState :=
  if s.pendingSetPriority then
    (controlResult,
      { s with pendingSetPriority := false, opqCounter := s.opqCounter + 1 })
  else
    (.failed, s)

/-- `DcpConsumer::handleExtMetaData`. -/
def handleExtMetaData (s : ConsumerState)
    (controlResult : EngineCode) : EngineCode × ConsumerState :=
  if s.pendingEnableExtMetaData then
    (controlResult,
      { s with pendingEnableExtMetaData := false, opqCounter := s.opqCounter + 1 })
  else
    (.failed, s)

/-- `DcpConsumer::handleValueCompression`. -/
def handleValueCompression (s : ConsumerState)
    (controlResult : EngineCode) : EngineCode × ConsumerState :=
  if s.pendingEnableValueCompression then
    (controlResult,
      { s with pendingEnableValueCompression := false, opqCounter := s.opqCounter + 1 })
  else
    (.failed, s)

/-- `DcpConsumer::supportCursorDropping`. -/
def supportCursorDropping (s : ConsumerState)
    (controlResult : EngineCode) : EngineCode × ConsumerState :=
  if s.pendingSupportCursorDropping then
    (controlResult,
      { s with pendingSupportCursorDropping := false, opqCounter := s.opqCounter + 1 })
  else
    (.failed, s)

/-- Event tag of a DcpResponse pulled from a passive stream.  The four named
events are the ones the consumer may legitimately emit; `other` stands for
every remaining event value. -/
inductive DcpEvent where
  | streamReq
  | addStreamRsp
  | setVBucketRsp
  | snapshotMarkerRsp
  | other (n : Nat)
deriving DecidableEq, Repr

/-- Whether the event is in getNextItem's whitelist (DCP_STREAM_REQ,
DCP_ADD_STREAM, DCP_SET_VBUCKET, DCP_SNAPSHOT_MARKER). -/
def DcpEvent.isExpected : DcpEvent → Bool
  | .other _ => false
  | _ => true

/-- An outbound response pulled from a stream, as much of it as the
consumer's pump inspects. -/
structure DcpResponse where
  event : DcpEvent
  opq : Nat
deriving DecidableEq, Repr

/-- The drain loop of `DcpConsumer::getNextItem` over the ready list.
`next` is the per-vbid oracle for `stream->next()` (PassiveStream is not
in the snapshot; each vbid is queried at most once per call).  Pops the
head vbid; a missing stream or an empty `next` drops it; a response
re-enqueues the vbid at the tail and is returned after the event
whitelist check (`abort()` on an unexpected event). -/
def drainReady (streams : List (Option StreamInfo))
    (next : Nat → Option DcpResponse) :
    List Nat → Except RunError (Option DcpResponse × List Nat)
  | [] => .ok (none, [])
  | vbucket :: rest =>
    match streams.getD vbucket none with
    | none => drainReady streams next rest
    | some _ =>
      match next vbucket with
      | none => drainReady streams next rest
      | some op =>
        if op.event.isExpected then .ok (some op, rest ++ [vbucket])
        else .error .abortCalled

/-- `DcpConsumer::getNextItem`: unpause, drain the ready list, and mark the
consumer paused when it empties with nothing to send. -/
def getNextItem (s : ConsumerState) (next : Nat → Option DcpResponse) :
    Except RunError (Option DcpResponse × ConsumerState) :=
  match drainReady s.streams next s.ready with
  | .error e => .error e
  | .ok (some op, r) => .ok (some op, { s with ready := r, paused := false })
  | .ok (none, r) => .ok (none, { s with ready := r, paused := true })

/-- `if (ret == ENGINE_SUCCESS) ret = ENGINE_WANT_MORE`: the lift step
applies to every outbound source's result. -/
def liftSuccess (r : EngineCode) : EngineCode :=
  if r = .success then .want_more else r

/-- `DcpConsumer::step`.  `flowCtlResult` is what
`flowControl.handleFlowCtl(producers)` returned (FlowControl is not in the
snapshot; per the spec it reports FAILED when no ack is due),
`controlResult` the result of the one `producers->control` call a
negotiation handler makes, and `producerResult` the result of the
`producers->*` call made for a response pulled by getNextItem. -/
def step (s : ConsumerState) (now : Nat)
    (flowCtlResult controlResult producerResult : EngineCode)
    (next : Nat → Option DcpResponse) :
    Except RunError (EngineCode × ConsumerState) :=
  if s.disconnectFlag then .ok (.disconnect, s)
  else if flowCtlResult ≠ .failed then .ok (liftSuccess flowCtlResult, s)
  else
    let r2 := handleNoop s now controlResult
    if r2.1 ≠ .failed then .ok (liftSuccess r2.1, r2.2)
    else
      let r3 := handlePriority r2.2 controlResult
      if r3.1 ≠ .failed then .ok (liftSuccess r3.1, r3.2)
      else
        let r4 := handleExtMetaData r3.2 controlResult
        if r4.1 ≠ .failed then .ok (liftSuccess r4.1, r4.2)
        else
          let r5 := handleValueCompression r4.2 controlResult
          if r5.1 ≠ .failed then .ok (liftSuccess r5.1, r5.2)
          else
            let r6 := supportCursorDropping r5.2 controlResult
            if r6.1 ≠ .failed then .ok (liftSuccess r6.1, r6.2)
            else
              match getNextItem r6.2 next with
              | .error e => .error e
              | .ok (none, s7) => .ok (.success, s7)
              | .ok (some op, s7) =>
                let ret := match op.event with
                  | .other _ => EngineCode.disconnect
                  | _ => producerResult
                .ok (liftSuccess ret, s7)

/-! Concrete states used to instantiate the theorems below. -/

/-- A stream in READING state with locally minted opaque 7. -/
def sampleStream : StreamInfo := ⟨7, .reading⟩

/-- A consumer past negotiation: one live stream on vbucket 0 (opaque 7,
correlated to external opaque 1), empty flow-control tally, all one-shot
control messages already sent. -/
def sampleState : ConsumerState where
  disconnectFlag := false
  streams := [some sampleStream]
  ready := [0]
  opqCounter := 7
  opqMap := [(7, 1, 0)]
  itemsToProcess := false
  freedBytes := 0
  lastNoopTime := 0
  noopInterval := 180
  pendingEnableNoop := false
  pendingSendNoopInterval := false
  pendingSetPriority := false
  pendingEnableExtMetaData := false
  pendingEnableValueCompression := false
  pendingSupportCursorDropping := false
  paused := false

/-- The sample consumer with the disconnect flag raised. -/
def disconnectedState : ConsumerState := { sampleState with disconnectFlag := true }

/-- The sample consumer whose stream on vbucket 0 is DEAD while vbucket 0
still sits in the ready list (reachable: addStream queued it, then the
stream died before getNextItem drained it). -/
def deadStreamState : ConsumerState :=
  { sampleState with streams := [some ⟨1, .dead⟩], ready := [0] }

/-- A configuration with noop NOT negotiated (dcp_enable_noop = false) and a
1-second noop interval. -/
def noNoopCfg : Configuration := ⟨1, 1, false, false⟩

/-! Claim theorems. -/

/-- C4 (amended): the rollback task calls storage.rollback once per run; on
TMPFAIL it reschedules without touching the counter, on NOT_MY_VBUCKET it
gives up AND increments the rollback counter, on SUCCESS it reconnects the
stream from the vbucket's high seqno and increments the counter, and any
other storage result is a fatal logic error.  (The claim's "incremented
only on the SUCCESS outcome" is what the counterexample refutes.) -/
theorem rollbackTask_outcomes (opq vbid seq hs cnt : Nat) :
    rollbackTaskRun opq vbid seq .tmpfail hs cnt = .ok (true, cnt, none) ∧
    rollbackTaskRun opq vbid seq .not_my_vbucket hs cnt = .ok (false, cnt + 1, none) ∧
    rollbackTaskRun opq vbid seq .success hs cnt
      = .ok (false, cnt + 1, some ⟨vbid, opq, hs⟩) ∧
    rollbackTaskRun opq vbid seq .einval hs cnt = .error .logicError :=
  ⟨rfl, rfl, rfl, rfl⟩

/-- C4 counterexample: with storage answering NOT_MY_VBUCKET the task gives
up (returns false) and the rollback counter is nevertheless incremented
(0 becomes 1), refuting "the rollback counter is incremented only on the
SUCCESS outcome". -/
theorem rollbackTask_counter_on_not_my_vbucket :
    rollbackTaskRun 1 2 3 .not_my_vbucket 9 0 = .ok (false, 1, none) ∧ (1 : Nat) ≠ 0 :=
  ⟨rfl, by decide⟩

/-- C8: a snapshot marker with start_seqno > end_seqno returns EINVAL with
the consumer state untouched and no message delivered to any stream; a
marker with start_seqno = end_seqno passes this validation and (on a live
matching stream) is delivered via messageReceived. -/
theorem snapshotMarker_range_validation (s : ConsumerState)
    (opq vbucket startSeqno endSeqno flags : Nat) (st : StreamInfo) (mr : EngineCode)
    (hd : s.disconnectFlag = false) :
    (startSeqno > endSeqno →
      snapshotMarker s opq vbucket startSeqno endSeqno flags true mr
        = ⟨.einval, s, false, false⟩) ∧
    (startSeqno = endSeqno → s.streamAt vbucket = some st → st.opq = opq →
      st.isActive = true →
      (snapshotMarker s opq vbucket startSeqno endSeqno flags true mr).delivered
        = true) := by
  constructor
  · intro hgt
    simp [snapshotMarker, hd, hgt]
  · intro heq hstream hopq hact
    simp [snapshotMarker, hd, heq, hstream, hopq, hact, deliverTail]
    by_cases hmr : mr = .tmpfail <;> simp [hmr]

/-- C8 witness: snapshotMarker(start=5, end=4) on the sample consumer
returns EINVAL and changes nothing; snapshotMarker(start=4, end=4) reaches
the stream. -/
theorem snapshotMarker_range_validation_witness :
    snapshotMarker sampleState 7 0 5 4 0 true .success
      = ⟨.einval, sampleState, false, false⟩ ∧
    (snapshotMarker sampleState 7 0 4 4 0 true .success).delivered = true := by
  have h := snapshotMarker_range_validation sampleState 7 0 5 4 0 sampleStream .success
    (by decide)
  have h2 := snapshotMarker_range_validation sampleState 7 0 4 4 0 sampleStream .success
    (by decide)
  exact ⟨h.1 (by decide), h2.2 rfl (by decide) (by decide) (by decide)⟩

/-- C10: on a live matching stream, a mutation or deletion whose extended
metadata (nmeta > 0) parses with EINVAL status returns EINVAL directly:
no message is delivered to the stream and the consumer state — in
particular the FlowControl freed-byte tally — is unchanged. -/
theorem emd_invalid_rejected (s : ConsumerState) (opq vbucket : Nat)
    (nkey nvalue nmeta bySeqno : Nat) (st : StreamInfo)
    (allocOk : Bool) (mr : EngineCode)
    (hd : s.disconnectFlag = false)
    (hstream : s.streamAt vbucket = some st) (hopq : st.opq = opq)
    (hact : st.isActive = true) (hseq : bySeqno ≠ 0) (hm : 0 < nmeta) :
    mutation s opq vbucket nkey nvalue nmeta bySeqno .einval allocOk mr
      = ⟨.einval, s, false, false⟩ ∧
    deletion s opq vbucket nkey nmeta bySeqno .einval allocOk mr
      = ⟨.einval, s, false, false⟩ := by
  constructor
  · simp [mutation, hd, hstream, hopq, hact, hseq, hm]
  · simp [deletion, hd, hstream, hopq, hact, hseq, hm]

/-- C10 witness: a mutation and a deletion carrying 2 bytes of extended
metadata that parse as EINVAL are rejected on the sample consumer with no
state change. -/
theorem emd_invalid_rejected_witness :
    mutation sampleState 7 0 4 8 2 10 .einval true .success
      = ⟨.einval, sampleState, false, false⟩ ∧
    deletion sampleState 7 0 4 2 10 .einval true .success
      = ⟨.einval, sampleState, false, false⟩ := by
  have h := emd_invalid_rejected sampleState 7 0 4 8 2 10 sampleStream true .success
    (by decide) (by decide) (by decide) (by decide) (by decide) (by decide)
  exact ⟨h.1, h.2⟩

/-- C1 (amended): for every inbound message call that reaches
messageReceived, the dispatch behaves as the common tail `deliverTail`:
a TMPFAIL result is lifted to SUCCESS with no bytes credited (the
processor credits them later); EVERY other result — SUCCESS and failures
alike — is returned to the caller verbatim with the message's byte cost
credited to FlowControl exactly once.  (The claim's "for any other
failure ... no bytes are credited" is what the counterexample refutes;
the SUCCESS and TMPFAIL arms of the claim hold.) -/
theorem inbound_flow_credit (s : ConsumerState) (opq vbucket : Nat)
    (st : StreamInfo) (nkey nvalue nmeta bySeqno startSeqno endSeqno : Nat)
    (flags stateArg : Nat) (emdStatus mr : EngineCode)
    (hd : s.disconnectFlag = false)
    (hstream : s.streamAt vbucket = some st)
    (hopq : st.opq = opq) (hact : st.isActive = true)
    (hseq : bySeqno ≠ 0)
    (hemd : ¬ (0 < nmeta ∧ emdStatus = EngineCode.einval))
    (hrange : ¬ startSeqno > endSeqno) :
    mutation s opq vbucket nkey nvalue nmeta bySeqno emdStatus true mr
      = deliverTail s mr (mutationBaseMsgBytes + nkey + nmeta + nvalue) ∧
    deletion s opq vbucket nkey nmeta bySeqno emdStatus true mr
      = deliverTail s mr (deletionBaseMsgBytes + nkey + nmeta) ∧
    expiration s opq vbucket nkey nmeta bySeqno emdStatus true mr
      = deliverTail s mr (deletionBaseMsgBytes + nkey + nmeta) ∧
    snapshotMarker s opq vbucket startSeqno endSeqno flags true mr
      = deliverTail s mr snapshotMarkerBaseMsgBytes ∧
    streamEnd s opq vbucket flags true mr
      = deliverTail s mr streamEndBaseMsgBytes ∧
    setVBucketState s opq vbucket stateArg true mr
      = deliverTail s mr setVBucketStateBaseMsgBytes ∧
    (mr = .tmpfail →
      deliverTail s mr (mutationBaseMsgBytes + nkey + nmeta + nvalue)
        = ⟨.success, { s with itemsToProcess := true }, true, !s.itemsToProcess⟩) ∧
    (∀ bytes, mr ≠ .tmpfail →
      deliverTail s mr bytes
        = ⟨mr, { s with freedBytes := s.freedBytes + bytes }, true, false⟩) := by
  refine ⟨?_, ?_, ?_, ?_, ?_, ?_, ?_, ?_⟩
  · simp [mutation, hd, hstream, hopq, hact, hseq, hemd]
  · simp [deletion, hd, hstream, hopq, hact, hseq, hemd]
  · simp [expiration, deletion, hd, hstream, hopq, hact, hseq, hemd]
  · simp [snapshotMarker, hd, hstream, hopq, hact, hrange]
  · simp [streamEnd, hd, hstream, hopq, hact]
  · simp [setVBucketState, hd, hstream, hopq, hact]
  · intro hmr; simp [deliverTail, hmr]
  · intro bytes hmr; simp [deliverTail, hmr]

/-- C1 witness: a buffered (TMPFAIL) mutation on the sample consumer is
lifted to SUCCESS with nothing credited, and a synchronously consumed
(SUCCESS) mutation credits exactly its byte cost 55 + 4 + 0 + 8. -/
theorem inbound_flow_credit_witness :
    (mutation sampleState 7 0 4 8 0 10 .success true .tmpfail).code
      = EngineCode.success ∧
    (mutation sampleState 7 0 4 8 0 10 .success true .tmpfail).state.freedBytes = 0 ∧
    (mutation sampleState 7 0 4 8 0 10 .success true .success).state.freedBytes = 67 := by
  have h1 := (inbound_flow_credit sampleState 7 0 sampleStream 4 8 0 10 5 5 0 0
    .success .tmpfail (by decide) (by decide) (by decide) (by decide) (by decide)
    (by decide) (by decide)).1
  have h2 := (inbound_flow_credit sampleState 7 0 sampleStream 4 8 0 10 5 5 0 0
    .success .success (by decide) (by decide) (by decide) (by decide) (by decide)
    (by decide) (by decide)).1
  rw [h1, h2]
  exact ⟨rfl, rfl, rfl⟩

/-- C1 counterexample: a mutation that reaches messageReceived and gets the
failure ENOMEM back returns that failure to the caller, yet the
FlowControl tally IS credited with the message's byte cost (67 = 55 base
+ 4 key + 8 value), refuting "for any other failure result ... no bytes
are credited". -/
theorem inbound_failure_still_credits :
    (mutation sampleState 7 0 4 8 0 10 .success true .enomem).delivered = true ∧
    (mutation sampleState 7 0 4 8 0 10 .success true .enomem).code
      = EngineCode.enomem ∧
    (mutation sampleState 7 0 4 8 0 10 .success true .enomem).state.freedBytes = 67 ∧
    sampleState.freedBytes = 0 := by
  decide

/-- C2 (amended): once the disconnect flag is set, addStream, closeStream,
streamEnd, mutation, deletion, expiration, snapshotMarker,
setVBucketState, flush and handleResponse short-circuit with DISCONNECT
and step returns DISCONNECT — but noop does NOT check the flag: it
records the noop time and returns SUCCESS even on a disconnected
consumer. -/
theorem disconnect_sticky (s : ConsumerState) (hd : s.disconnectFlag = true) :
    (∀ opq vbucket flags vb, addStream s opq vbucket flags vb = (.disconnect, s)) ∧
    (∀ opq vbucket bc, closeStream s opq vbucket bc = (.disconnect, s)) ∧
    (∀ opq vbucket flags ok mr,
      streamEnd s opq vbucket flags ok mr = ⟨.disconnect, s, false, false⟩) ∧
    (∀ opq vbucket nkey nvalue nmeta bySeqno es ok mr,
      mutation s opq vbucket nkey nvalue nmeta bySeqno es ok mr
        = ⟨.disconnect, s, false, false⟩) ∧
    (∀ opq vbucket nkey nmeta bySeqno es ok mr,
      deletion s opq vbucket nkey nmeta bySeqno es ok mr
        = ⟨.disconnect, s, false, false⟩) ∧
    (∀ opq vbucket nkey nmeta bySeqno es ok mr,
      expiration s opq vbucket nkey nmeta bySeqno es ok mr
        = ⟨.disconnect, s, false, false⟩) ∧
    (∀ opq vbucket a b flags ok mr,
      snapshotMarker s opq vbucket a b flags ok mr = ⟨.disconnect, s, false, false⟩) ∧
    (∀ opq vbucket stateArg ok mr,
      setVBucketState s opq vbucket stateArg ok mr = ⟨.disconnect, s, false, false⟩) ∧
    (∀ opq vbucket, flush s opq vbucket = (.disconnect, s)) ∧
    (∀ opcode opq status bodylen seqR,
      handleResponse s opcode opq status bodylen seqR = ⟨.disconnect, s, none⟩) ∧
    (∀ now fr cr pr next, step s now fr cr pr next = .ok (.disconnect, s)) ∧
    (∀ opq now, noop s opq now = (.success, { s with lastNoopTime := now })) := by
  refine ⟨?_, ?_, ?_, ?_, ?_, ?_, ?_, ?_, ?_, ?_, ?_, ?_⟩ <;>
    intros <;> simp [addStream, closeStream, streamEnd, mutation, deletion,
      expiration, snapshotMarker, setVBucketState, flush, handleResponse, step,
      noop, hd]

/-- C2 witness: on the disconnected sample consumer, mutation and step
return DISCONNECT while noop returns SUCCESS. -/
theorem disconnect_sticky_witness :
    mutation disconnectedState 7 0 4 8 0 10 .success true .success
      = ⟨.disconnect, disconnectedState, false, false⟩ ∧
    step disconnectedState 1 .failed .success .success (fun _ => none)
      = .ok (.disconnect, disconnectedState) ∧
    noop disconnectedState 1 5
      = (.success, { disconnectedState with lastNoopTime := 5 }) := by
  have h := disconnect_sticky disconnectedState (by decide)
  exact ⟨h.2.2.2.1 7 0 4 8 0 10 .success true .success,
    h.2.2.2.2.2.2.2.2.2.2.1 1 .failed .success .success (fun _ => none),
    h.2.2.2.2.2.2.2.2.2.2.2 1 5⟩

/-- C2 counterexample: noop on a disconnected consumer returns SUCCESS, not
DISCONNECT — `DcpConsumer::noop` never consults the disconnect flag —
refuting "every inbound call (… noop …) returns DISCONNECT". -/
theorem noop_ignores_disconnect :
    disconnectedState.disconnectFlag = true ∧
    (noop disconnectedState 1 5).1 = EngineCode.success ∧
    (noop disconnectedState 1 5).1 ≠ EngineCode.disconnect := by
  decide

/-- C3 (amended): once no noop-related control message is pending, step's
noop handling disconnects whenever the elapsed time since the last
received noop exceeds twice the configured interval — unconditionally,
i.e. also when noop was never negotiated (dcp_enable_noop = false merely
clears both pending flags at construction, it does not guard the timeout
check). -/
theorem noop_timeout_disconnect (s : ConsumerState) (now : Nat)
    (fr cr pr : EngineCode) (next : Nat → Option DcpResponse)
    (hpe : s.pendingEnableNoop = false) (hpsi : s.pendingSendNoopInterval = false)
    (ht : s.noopInterval * 2 < now - s.lastNoopTime) :
    handleNoop s now cr = (.disconnect, s) ∧
    (s.disconnectFlag = false → fr = .failed →
      step s now fr cr pr next = .ok (.disconnect, s)) := by
  have hn : handleNoop s now cr = (.disconnect, s) := by
    simp [handleNoop, hpe, hpsi, ht]
  refine ⟨hn, ?_⟩
  intro hd hfr
  simp [step, hd, hfr, hn, liftSuccess]

/-- C3 witness: a consumer constructed with dcp_enable_noop = false and
interval 1 s, stepped at time 3 with nothing else to send, disconnects. -/
theorem noop_timeout_disconnect_witness :
    handleNoop (consumerInit noNoopCfg 0) 3 .success
      = (.disconnect, consumerInit noNoopCfg 0) ∧
    step (consumerInit noNoopCfg 0) 3 .failed .success .success (fun _ => none)
      = .ok (.disconnect, consumerInit noNoopCfg 0) := by
  have h := noop_timeout_disconnect (consumerInit noNoopCfg 0) 3 .failed .success
    .success (fun _ => none) (by decide) (by decide) (by decide)
  exact ⟨h.1, h.2 (by decide) rfl⟩

/-- C3 counterexample: noop was NOT negotiated (dcp_enable_noop = false),
yet after 3 seconds of silence with a 1-second interval step returns
DISCONNECT, refuting "if noop was not negotiated, no such disconnect
occurs". -/
theorem noop_timeout_without_negotiation :
    noNoopCfg.dcpEnableNoop = false ∧
    step (consumerInit noNoopCfg 0) 3 .failed .success .success (fun _ => none)
      = .ok (.disconnect, consumerInit noNoopCfg 0) := by
  constructor
  · decide
  · rfl

/-- C5 (amended): for a STREAM_REQ response with a known opaque: ROLLBACK
status with a body of any length other than 8 forces DISCONNECT, with an
8-byte body it schedules the rollback task; for a non-ROLLBACK status a
zero-length or non-multiple-of-16 body forces DISCONNECT ONLY when the
status equals success (0) — for every other status the response is passed
to streamAccepted and SUCCESS is returned regardless of body length. -/
theorem handleResponse_validation (s : ConsumerState)
    (opq status bodylen seqR extop vbid : Nat) (st : StreamInfo)
    (hd : s.disconnectFlag = false)
    (hfind : findOpq s.opqMap opq = some (extop, vbid))
    (hstream : s.streamAt vbid = some st) (hopq : st.opq = opq) :
    (status = STATUS_ROLLBACK → bodylen ≠ 8 →
      handleResponse s CMD_DCP_STREAM_REQ opq status bodylen seqR
        = ⟨.disconnect, s, none⟩) ∧
    (status = STATUS_ROLLBACK → bodylen = 8 →
      handleResponse s CMD_DCP_STREAM_REQ opq status bodylen seqR
        = ⟨.success, s, some (opq, vbid, seqR)⟩) ∧
    (status = 0 → bodylen % 16 ≠ 0 ∨ bodylen = 0 →
      handleResponse s CMD_DCP_STREAM_REQ opq status bodylen seqR
        = ⟨.disconnect, s, none⟩) ∧
    (status ≠ STATUS_ROLLBACK → status ≠ 0 →
      handleResponse s CMD_DCP_STREAM_REQ opq status bodylen seqR
        = ⟨.success, streamAccepted s opq status, none⟩) := by
  have hvalid : isValidOpq s opq vbid = true := by
    simp [isValidOpq, hstream, hopq]
  refine ⟨?_, ?_, ?_, ?_⟩
  · intro hst hbl
    simp [handleResponse, hd, hfind, hvalid, hst, hbl]
  · intro hst hbl
    simp [handleResponse, hd, hfind, hvalid, hst, hbl]
  · intro hst hbl
    rcases hbl with hbl | hbl <;>
      simp [handleResponse, STATUS_ROLLBACK, hd, hfind, hvalid, hst, hbl]
  · intro hnr hnz
    simp [handleResponse, hd, hfind, hvalid, hnr, hnz]

/-- C5 witness: on the sample consumer (opaque 7 registered for vbucket 0),
a ROLLBACK response with a 7-byte body disconnects, with an 8-byte body
carrying seqno 42 it schedules RollbackTask(7, 0, 42), and a success
response with a mis-sized 5-byte failover log disconnects. -/
theorem handleResponse_validation_witness :
    handleResponse sampleState CMD_DCP_STREAM_REQ 7 STATUS_ROLLBACK 7 42
      = ⟨.disconnect, sampleState, none⟩ ∧
    handleResponse sampleState CMD_DCP_STREAM_REQ 7 STATUS_ROLLBACK 8 42
      = ⟨.success, sampleState, some (7, 0, 42)⟩ ∧
    handleResponse sampleState CMD_DCP_STREAM_REQ 7 0 5 0
      = ⟨.disconnect, sampleState, none⟩ := by
  have h := handleResponse_validation sampleState 7 STATUS_ROLLBACK 7 42 1 0
    sampleStream (by decide) (by decide) (by decide) (by decide)
  have h2 := handleResponse_validation sampleState 7 STATUS_ROLLBACK 8 42 1 0
    sampleStream (by decide) (by decide) (by decide) (by decide)
  have h3 := handleResponse_validation sampleState 7 0 5 0 1 0
    sampleStream (by decide) (by decide) (by decide) (by decide)
  exact ⟨h.1 rfl (by decide), h2.2.1 rfl rfl, h3.2.2.1 rfl (by decide)⟩

/-- C5 counterexample: a STREAM_REQ response with known opaque, non-ROLLBACK
status 1 and a malformed 5-byte body (zero nor multiple of 16 it is not)
is ACCEPTED with SUCCESS — the length check is guarded by
`status == ENGINE_SUCCESS` — refuting "malformed bodies always force
disconnect, regardless of the status value". -/
theorem malformed_body_accepted_on_failure_status :
    (handleResponse sampleState CMD_DCP_STREAM_REQ 7 1 5 0).code
      = EngineCode.success ∧
    (handleResponse sampleState CMD_DCP_STREAM_REQ 7 1 5 0).code
      ≠ EngineCode.disconnect ∧
    (5 : Nat) % 16 ≠ 0 := by
  decide

/-- C9 (amended): notifyStreamReady preserves the at-most-once invariant of
the ready list (it checks membership before appending), but addStream
appends the vbid unconditionally on success, so when it replaces a dead
stream whose vbid is still queued the invariant is broken. -/
theorem ready_insertion_dedup :
    (∀ (s : ConsumerState) (vbucket : Nat), s.ready.Nodup →
      (notifyStreamReady s vbucket).ready.Nodup) ∧
    (∀ (s s' : ConsumerState) (opq vbucket flags : Nat) (vb : Option VBucketInfo),
      addStream s opq vbucket flags vb = (.success, s') →
      s'.ready = s.ready ++ [vbucket]) := by
  constructor
  · intro s vbucket hnd
    by_cases hmem : vbucket ∈ s.ready
    · simp [notifyStreamReady, hmem, hnd]
    · simp [notifyStreamReady, hmem, List.nodup_append, hnd]
  · intro s s' opq vbucket flags vb h
    unfold addStream at h
    split at h
    · simp at h
    · split at h
      · simp at h
      · split at h
        · simp at h
        · dsimp only at h
          split at h
          · simp at h
          · rw [Prod.mk.injEq] at h
            rw [← h.2]

/-- C9 witness: notifyStreamReady on the sample consumer (vbucket 0 already
queued) leaves the ready list duplicate-free; on success addStream appends
the vbid to the tail. -/
theorem ready_insertion_dedup_witness :
    (notifyStreamReady sampleState 0).ready.Nodup ∧
    (addStream deadStreamState 9 0 0 (some ⟨false⟩)).2.ready = [0] ++ [0] := by
  constructor
  · exact ready_insertion_dedup.1 sampleState 0 (by decide)
  · exact ready_insertion_dedup.2 deadStreamState
      (addStream deadStreamState 9 0 0 (some ⟨false⟩)).2 9 0 0 (some ⟨false⟩) (by decide)

/-- C9 counterexample: vbucket 0's stream is DEAD but vbucket 0 still sits
in the ready list; a second addStream for vbucket 0 succeeds (dead streams
may be replaced) and appends 0 again without any membership check, leaving
ready = [0, 0] — the vbid occurs twice, refuting the invariant for the
addStream insertion point. -/
theorem addStream_duplicates_ready :
    deadStreamState.ready.Nodup ∧
    (addStream deadStreamState 9 0 0 (some ⟨false⟩)).1 = EngineCode.success ∧
    (addStream deadStreamState 9 0 0 (some ⟨false⟩)).2.ready = [0, 0] ∧
    ¬ (addStream deadStreamState 9 0 0 (some ⟨false⟩)).2.ready.Nodup := by
  decide

/-- When handleNoop reports FAILED it had nothing to send and nothing timed
out, so the state is unchanged (the producers interface never answers
FAILED, §7: FAILED is internal). -/
theorem handleNoop_failed_eq (s : ConsumerState) (now : Nat) (cr : EngineCode)
    (h : (handleNoop s now cr).1 = .failed) (hcr : cr ≠ .failed) :
    handleNoop s now cr = (.failed, s) := by
  unfold handleNoop at h ⊢
  split_ifs at h ⊢ <;> simp_all

/-- handlePriority reporting FAILED leaves the state unchanged. -/
theorem handlePriority_failed_eq (s : ConsumerState) (cr : EngineCode)
    (h : (handlePriority s cr).1 = .failed) (hcr : cr ≠ .failed) :
    handlePriority s cr = (.failed, s) := by
  unfold handlePriority at h ⊢
  split_ifs at h ⊢ <;> simp_all

/-- handleExtMetaData reporting FAILED leaves the state unchanged. -/
theorem handleExtMetaData_failed_eq (s : ConsumerState) (cr : EngineCode)
    (h : (handleExtMetaData s cr).1 = .failed) (hcr : cr ≠ .failed) :
    handleExtMetaData s cr = (.failed, s) := by
  unfold handleExtMetaData at h ⊢
  split_ifs at h ⊢ <;> simp_all

/-- handleValueCompression reporting FAILED leaves the state unchanged. -/
theorem handleValueCompression_failed_eq (s : ConsumerState) (cr : EngineCode)
    (h : (handleValueCompression s cr).1 = .failed) (hcr : cr ≠ .failed) :
    handleValueCompression s cr = (.failed, s) := by
  unfold handleValueCompression at h ⊢
  split_ifs at h ⊢ <;> simp_all

/-- supportCursorDropping reporting FAILED leaves the state unchanged. -/
theorem supportCursorDropping_failed_eq (s : ConsumerState) (cr : EngineCode)
    (h : (supportCursorDropping s cr).1 = .failed) (hcr : cr ≠ .failed) :
    supportCursorDropping s cr = (.failed, s) := by
  unfold supportCursorDropping at h ⊢
  split_ifs at h ⊢ <;> simp_all

/-- C6: step consults its outbound sources in the fixed order flow-control
ack, noop handling, priority, extended metadata, value compression,
cursor dropping, getNextItem; the first source not reporting FAILED
decides the result, SUCCESS from a source is lifted to WANT_MORE, any
other result is returned verbatim, and when every source declines and
getNextItem drains nothing the consumer marks itself paused and step
returns SUCCESS.  (`cr ≠ FAILED` because FAILED is internal and never
produced by the host's producers interface, §7.) -/
theorem step_source_order (s : ConsumerState) (now : Nat)
    (fr cr pr : EngineCode) (next : Nat → Option DcpResponse)
    (hd : s.disconnectFlag = false) (hcr : cr ≠ .failed) :
    (fr ≠ .failed → step s now fr cr pr next = .ok (liftSuccess fr, s)) ∧
    (fr = .failed → (handleNoop s now cr).1 ≠ .failed →
      step s now fr cr pr next
        = .ok (liftSuccess (handleNoop s now cr).1, (handleNoop s now cr).2)) ∧
    (fr = .failed → (handleNoop s now cr).1 = .failed →
      (handlePriority s cr).1 ≠ .failed →
      step s now fr cr pr next
        = .ok (liftSuccess (handlePriority s cr).1, (handlePriority s cr).2)) ∧
    (fr = .failed → (handleNoop s now cr).1 = .failed →
      (handlePriority s cr).1 = .failed →
      (handleExtMetaData s cr).1 ≠ .failed →
      step s now fr cr pr next
        = .ok (liftSuccess (handleExtMetaData s cr).1, (handleExtMetaData s cr).2)) ∧
    (fr = .failed → (handleNoop s now cr).1 = .failed →
      (handlePriority s cr).1 = .failed →
      (handleExtMetaData s cr).1 = .failed →
      (handleValueCompression s cr).1 ≠ .failed →
      step s now fr cr pr next
        = .ok (liftSuccess (handleValueCompression s cr).1,
               (handleValueCompression s cr).2)) ∧
    (fr = .failed → (handleNoop s now cr).1 = .failed →
      (handlePriority s cr).1 = .failed →
      (handleExtMetaData s cr).1 = .failed →
      (handleValueCompression s cr).1 = .failed →
      (supportCursorDropping s cr).1 ≠ .failed →
      step s now fr cr pr next
        = .ok (liftSuccess (supportCursorDropping s cr).1,
               (supportCursorDropping s cr).2)) ∧
    (∀ r, fr = .failed → (handleNoop s now cr).1 = .failed →
      (handlePriority s cr).1 = .failed →
      (handleExtMetaData s cr).1 = .failed →
      (handleValueCompression s cr).1 = .failed →
      (supportCursorDropping s cr).1 = .failed →
      drainReady s.streams next s.ready = .ok (none, r) →
      step s now fr cr pr next
        = .ok (.success, { s with ready := r, paused := true })) ∧
    (∀ r op, fr = .failed → (handleNoop s now cr).1 = .failed →
      (handlePriority s cr).1 = .failed →
      (handleExtMetaData s cr).1 = .failed →
      (handleValueCompression s cr).1 = .failed →
      (supportCursorDropping s cr).1 = .failed →
      drainReady s.streams next s.ready = .ok (some op, r) →
      op.event.isExpected = true →
      step s now fr cr pr next
        = .ok (liftSuccess pr, { s with ready := r, paused := false })) ∧
    liftSuccess .success = .want_more ∧
    (∀ r, r ≠ .success → liftSuccess r = r) := by
  refine ⟨?_, ?_, ?_, ?_, ?_, ?_, ?_, ?_, rfl, ?_⟩
  · intro hfr
    simp [step, hd, hfr]
  · intro hfr h2
    simp [step, hd, hfr, h2]
  · intro hfr h2 h3
    have e2 := handleNoop_failed_eq s now cr h2 hcr
    simp [step, hd, hfr, e2, h3]
  · intro hfr h2 h3 h4
    have e2 := handleNoop_failed_eq s now cr h2 hcr
    have e3 := handlePriority_failed_eq s cr h3 hcr
    simp [step, hd, hfr, e2, e3, h4]
  · intro hfr h2 h3 h4 h5
    have e2 := handleNoop_failed_eq s now cr h2 hcr
    have e3 := handlePriority_failed_eq s cr h3 hcr
    have e4 := handleExtMetaData_failed_eq s cr h4 hcr
    simp [step, hd, hfr, e2, e3, e4, h5]
  · intro hfr h2 h3 h4 h5 h6
    have e2 := handleNoop_failed_eq s now cr h2 hcr
    have e3 := handlePriority_failed_eq s cr h3 hcr
    have e4 := handleExtMetaData_failed_eq s cr h4 hcr
    have e5 := handleValueCompression_failed_eq s cr h5 hcr
    simp [step, hd, hfr, e2, e3, e4, e5, h6]
  · intro r hfr h2 h3 h4 h5 h6 hdrain
    have e2 := handleNoop_failed_eq s now cr h2 hcr
    have e3 := handlePriority_failed_eq s cr h3 hcr
    have e4 := handleExtMetaData_failed_eq s cr h4 hcr
    have e5 := handleValueCompression_failed_eq s cr h5 hcr
    have e6 := supportCursorDropping_failed_eq s cr h6 hcr
    simp [step, hd, hfr, e2, e3, e4, e5, e6, getNextItem, hdrain]
  · intro r op hfr h2 h3 h4 h5 h6 hdrain hexp
    have e2 := handleNoop_failed_eq s now cr h2 hcr
    have e3 := handlePriority_failed_eq s cr h3 hcr
    have e4 := handleExtMetaData_failed_eq s cr h4 hcr
    have e5 := handleValueCompression_failed_eq s cr h5 hcr
    have e6 := supportCursorDropping_failed_eq s cr h6 hcr
    obtain ⟨ev, o⟩ := op
    cases ev <;>
      simp_all [step, hd, hfr, e2, e3, e4, e5, e6, getNextItem, hdrain,
        DcpEvent.isExpected]
  · intro r hr
    simp [liftSuccess, hr]

/-- C6 witness: on the fully negotiated sample consumer with nothing to
send (flow control declines, noop fresh, no stream has output), step
returns SUCCESS and the consumer ends paused; and a pending-priority
consumer whose control call succeeds yields WANT_MORE. -/
theorem step_source_order_witness :
    step sampleState 1 .failed .success .success (fun _ => none)
      = .ok (.success, { sampleState with ready := [], paused := true }) ∧
    step { sampleState with pendingSetPriority := true } 1 .failed .success
        .success (fun _ => none)
      = .ok (.want_more,
             { sampleState with pendingSetPriority := false, opqCounter := 8 }) := by
  constructor
  · exact (step_source_order sampleState 1 .failed .success .success
      (fun _ => none) (by decide) (by decide)).2.2.2.2.2.2.1 []
      rfl (by decide) (by decide) (by decide) (by decide) (by decide) rfl
  · have h := (step_source_order { sampleState with pendingSetPriority := true } 1
      .failed .success .success (fun _ => none) (by decide) (by decide)).2.2.1
      rfl (by decide) (by decide)
    rw [h]
    rfl

/-- C7: getNextItem drains the ready list round-robin: it pops the head
vbid; a vanished stream or an empty next() drops the vbid and the loop
repeats; a response re-enqueues the vbid at the tail of ready and is
returned; an emptied ready list yields nothing and pauses the consumer.
(PassiveStream::next is not in the snapshot; per §4.2/§4.3 it only yields
the four per-stream response kinds, hypothesis `hnext`.) -/
theorem getNextItem_round_robin (streams : List (Option StreamInfo))
    (next : Nat → Option DcpResponse)
    (hnext : ∀ vb op, next vb = some op → op.event.isExpected = true) :
    (drainReady streams next [] = .ok (none, [])) ∧
    (∀ vb rest, streams.getD vb none = none →
      drainReady streams next (vb :: rest) = drainReady streams next rest) ∧
    (∀ vb rest st, streams.getD vb none = some st → next vb = none →
      drainReady streams next (vb :: rest) = drainReady streams next rest) ∧
    (∀ vb rest st op, streams.getD vb none = some st → next vb = some op →
      drainReady streams next (vb :: rest) = .ok (some op, rest ++ [vb])) ∧
    (∀ (s : ConsumerState) (r : List Nat), s.streams = streams →
      drainReady streams next s.ready = .ok (none, r) →
      getNextItem s next = .ok (none, { s with ready := r, paused := true })) := by
  refine ⟨rfl, ?_, ?_, ?_, ?_⟩
  · intro vb rest hs
    simp only [List.getD_eq_getElem?_getD] at hs
    simp [drainReady, hs]
  · intro vb rest st hs hn
    simp only [List.getD_eq_getElem?_getD] at hs
    simp [drainReady, hs, hn]
  · intro vb rest st op hs hn
    simp only [List.getD_eq_getElem?_getD] at hs
    simp [drainReady, hs, hn, hnext vb op hn]
  · intro s r hst hdrain
    rw [← hst] at hdrain
    simp [getNextItem, hdrain]

/-- C7 witness: with vbucket 0's stream present but empty, drainReady drops
the vbid and getNextItem pauses the sample consumer; with a STREAM_REQ
response available, drainReady returns it and re-enqueues vbucket 0. -/
theorem getNextItem_round_robin_witness :
    drainReady sampleState.streams (fun _ => none) [0]
      = drainReady sampleState.streams (fun _ => none) [] ∧
    getNextItem sampleState (fun _ => none)
      = .ok (none, { sampleState with ready := [], paused := true }) ∧
    drainReady sampleState.streams (fun _ => some ⟨.streamReq, 7⟩) [0]
      = .ok (some ⟨.streamReq, 7⟩, [0]) := by
  have h := getNextItem_round_robin sampleState.streams (fun _ => none)
    (fun vb op hop => by cases hop)
  have h2 := getNextItem_round_robin sampleState.streams
    (fun _ => some ⟨.streamReq, 7⟩) (fun vb op hop => by cases hop; rfl)
  refine ⟨h.2.2.1 0 [] sampleStream rfl rfl, ?_, h2.2.2.2.1 0 [] sampleStream ⟨.streamReq, 7⟩ rfl rfl⟩
  exact h.2.2.2.2 sampleState [] rfl (h.2.2.1 0 [] sampleStream rfl rfl)

end Dcp
